import Mathlib

/-!
Verification of the KidVentures Learning Assessment app (`src/App.py`).

The file shallowly embeds the pieces of the program that the documented
properties are about:

* `calculate_dimension_scores` — the keyword-matching tally over the first
  six answers (App.py lines 112-139);
* the literal option strings of questions q1..q6 shown by the form
  (App.py lines 619-630);
* the submission handler (App.py lines 696-797) as an explicit
  state-passing function `process_submission`;
* the content assembly of `generate_pdf_report` (App.py lines 141-531) as
  a pure function producing the list of content items of the document.

Python dictionaries become association lists `List (String × String)`,
Python `needle in hay` on strings becomes the executable substring test
`pyIn`, and `str.lower` becomes `pyLower` (ASCII lowering, which agrees
with Python on every literal option string of the form).
-/

set_option autoImplicit false

namespace Kidsven

/-- ASCII lowering of every character of a string, mirroring Python
`str.lower()` on the ASCII answer strings of the form. -/
def pyLower (s : String) : String := String.mk (s.data.map Char.toLower)

/-- Test whether the needle char list is an initial segment of the hay
char list. -/
def charsStartWith : List Char → List Char → Bool
  | [], _ => true
  | _ :: _, [] => false
  | n :: ns, h :: hs => n == h && charsStartWith ns hs

/-- Test whether the needle char list occurs contiguously inside the hay
char list. -/
def charsContain (needle : List Char) : List Char → Bool
  | [] => needle.isEmpty
  | h :: hs => charsStartWith needle (h :: hs) || charsContain needle hs

/-- Python `needle in hay` on strings: contiguous substring test. -/
def pyIn (needle hay : String) : Bool := charsContain needle.data hay.data

/-- The `scores` dictionary built by `calculate_dimension_scores`. -/
structure Scores where
  visual : Nat
  auditory : Nat
  kinesthetic : Nat
deriving DecidableEq

/-- Total of the three score components. -/
def sumScores (s : Scores) : Nat := s.visual + s.auditory + s.kinesthetic

/-- Visual test of the scorer (App.py line 132): the question's first
keyword, or the shared cues "visual" / "picture".  The answer argument is
already lower-cased. -/
def matchesVisual (keywords : List String) (answer : String) : Bool :=
  pyIn (keywords.getD 0 "") answer || pyIn "visual" answer || pyIn "picture" answer

/-- Auditory test of the scorer (App.py line 134): the question's second
keyword, or the shared cues "audi" / "hear". -/
def matchesAuditory (keywords : List String) (answer : String) : Bool :=
  pyIn (keywords.getD 1 "") answer || pyIn "audi" answer || pyIn "hear" answer

/-- Kinesthetic test of the scorer (App.py line 136): the question's third
keyword, or the shared cues "kines" / "doing" / "build" / "texture". -/
def matchesKinesthetic (keywords : List String) (answer : String) : Bool :=
  pyIn (keywords.getD 2 "") answer || pyIn "kines" answer || pyIn "doing" answer
    || pyIn "build" answer || pyIn "texture" answer

/-- Body of the per-question loop of `calculate_dimension_scores`
(App.py lines 130-137): an if/elif/elif chain, so at most one category is
incremented and visual has priority over auditory over kinesthetic. -/
def scoreQuestion (keywords : List String) (answerRaw : String) (s : Scores) : Scores :=
  let answer := pyLower answerRaw
  if matchesVisual keywords answer then { s with visual := s.visual + 1 }
  else if matchesAuditory keywords answer then { s with auditory := s.auditory + 1 }
  else if matchesKinesthetic keywords answer then { s with kinesthetic := s.kinesthetic + 1 }
  else s

/-- The `learning_map` of per-question keyword triples (App.py lines 121-128). -/
def learning_map : List (String × List String) :=
  [("q1", ["written", "spoken", "physical"]),
   ("q2", ["diagram", "read", "handling"]),
   ("q3", ["drawing", "talking", "gesturing"]),
   ("q4", ["visualize", "sound", "write"]),
   ("q5", ["messy", "noise", "sit still"]),
   ("q6", ["illustr", "captivat", "interact"])]

/-- Python `d.get(k, dflt)` on a dictionary modelled as an association list
(first entry with the key wins; dictionaries never repeat a key). -/
def dictGet : List (String × String) → String → String → String
  | [], _, dflt => dflt
  | p :: d, k, dflt => if p.1 == k then p.2 else dictGet d k dflt

/-- The scorer `calculate_dimension_scores` (App.py lines 112-139): folds the
per-question keyword test over `learning_map`, starting from all-zero scores;
missing keys read as the empty string, as `answers.get(q_key, '')` does. -/
def calculate_dimension_scores (answers : List (String × String)) : Scores :=
  learning_map.foldl
    (fun s p => scoreQuestion p.2 (dictGet answers p.1 "") s)
    { visual := 0, auditory := 0, kinesthetic := 0 }

/-- The declared literal option strings of questions q1..q6 as rendered by
the form (App.py lines 619-630). -/
def q_options : List (String × List String) :=
  [("q1", ["Seeing them written down or in a picture",
           "Hearing them spoken aloud",
           "Doing a physical activity associated with them"]),
   ("q2", ["Look carefully at the diagrams in the manual",
           "Ask someone to read the instructions to them",
           "Ignore the instructions and figure it out by handling the pieces"]),
   ("q3", ["Drawing, doodling, or making visual aids",
           "Talking, telling stories, or singing songs",
           "Gesturing, acting things out, or building models"]),
   ("q4", ["Try to visualize what the word looks like",
           "Sound out the letters phonetically",
           "Write it down or trace the letters with their finger"]),
   ("q5", ["Messy or cluttered visual surroundings",
           "Noises and other people talking",
           "Having to sit still for long periods"]),
   ("q6", ["Lots of detailed illustrations or photographs",
           "A captivating narrator or read aloud with expression",
           "Interactive elements like flaps or textures to feel"])]

/-- An Answer Set is valid on the learning-style block when each of q1..q6
maps to one of that question's declared literal option strings. -/
def validLearning (answers : List (String × String)) : Prop :=
  ∀ p ∈ q_options, dictGet answers p.1 "" ∈ p.2

instance (answers : List (String × String)) : Decidable (validLearning answers) :=
  List.decidableBAll _ q_options

/-- The Answer Set in which each of q1..q6 takes its first listed (visual)
option. -/
def visualAnswers : List (String × String) :=
  [("q1", "Seeing them written down or in a picture"),
   ("q2", "Look carefully at the diagrams in the manual"),
   ("q3", "Drawing, doodling, or making visual aids"),
   ("q4", "Try to visualize what the word looks like"),
   ("q5", "Messy or cluttered visual surroundings"),
   ("q6", "Lots of detailed illustrations or photographs")]

/-- Both shared cues and the per-question keyword triple, i.e. some branch of
the if/elif chain of `calculate_dimension_scores` fires for this answer. -/
def anyMatch (keywords : List String) (answerRaw : String) : Bool :=
  matchesVisual keywords (pyLower answerRaw)
    || matchesAuditory keywords (pyLower answerRaw)
    || matchesKinesthetic keywords (pyLower answerRaw)

/-- The fold of the per-question loop over an arbitrary keyword map, used to
reason about `calculate_dimension_scores` by induction. -/
def scoreFold (answers : List (String × String)) (l : List (String × List String))
    (s : Scores) : Scores :=
  l.foldl (fun t p => scoreQuestion p.2 (dictGet answers p.1 "") t) s

/-- The keys of the six learning-style questions. -/
def learningKeys : List String := ["q1", "q2", "q3", "q4", "q5", "q6"]

/-- Keyword triple of a learning-style question, read off `learning_map`. -/
def learningKeywords (k : String) : List String :=
  (learning_map.lookup k).getD []

/-- Removal of a key from a dictionary modelled as an association list:
the Answer Set "with that answer absent". -/
def filterOut (d : List (String × String)) (k : String) : List (String × String) :=
  d.filter (fun p => p.1 != k)

/-- An Answer Set whose q1 answer matches none of the scorer's cues while
q2..q6 carry declared option strings. -/
def noMatchAnswers : List (String × String) :=
  [("q1", "banana"),
   ("q2", "Look carefully at the diagrams in the manual"),
   ("q3", "Drawing, doodling, or making visual aids"),
   ("q4", "Try to visualize what the word looks like"),
   ("q5", "Messy or cluttered visual surroundings"),
   ("q6", "Lots of detailed illustrations or photographs")]

/-! ### Content of the generated document (`generate_pdf_report`, App.py 141-531)

The story passed to the document builder is modelled as a list of content
items.  Lengths given to spacers, rules and column widths are in hundredths
of an inch (the source writes them as multiples of `inch`).  Long literal
texts keep the source's wording with the surrounding indentation whitespace
normalized. -/

/-- One flowable appended to the `story` list of `generate_pdf_report`. -/
inductive Item where
  | spacer (hundredthsInch : Nat)
  | paragraph (style : String) (text : String)
  | hrule (thickness : Nat)
  | table (colWidthsHundredths : List Nat) (rows : List (List String))
  | pieChart (scores : Scores)
  | pageBreak

/-- Mission statement paragraph of the cover page (App.py lines 278-283). -/
def missionText : String :=
  "<i>\"At KidVentures Learning, we believe every child is uniquely created by God with specific gifts, talents, and a divine purpose. This comprehensive assessment reveals your child\x27s learning profile across five critical dimensions, empowering you to support their educational journey with confidence and biblical wisdom.\"</i>"

/-- Contact line of the cover page (App.py line 295). -/
def contactLine : String :=
  "📧 info@kidventureslearning.com | 📞 (404) 631-6320 | 🌐 www.kidventureslearning.com"

/-- Rows of the table of contents (App.py lines 304-315). -/
def toc_rows : List (List String) :=
  [["Section", "Page"],
   ["Executive Summary", "3"],
   ["Learning Style Analysis", "4"],
   ["Cognitive Strengths Profile", "5"],
   ["Developmental Orientation", "6"],
   ["Social-Emotional Landscape", "7"],
   ["Biblical Identity & Purpose", "8"],
   ["Personalized Recommendations", "9"],
   ["Assessment Responses", "11"],
   ["Next Steps & Resources", "12"]]

/-- Python `f"{(n/6)*100:.0f}"` for a score component n.  On the reachable
values 0..6 no halfway case arises, so float rounding agrees with this
rounding of the exact rational to the nearest integer. -/
def pctStr (n : Nat) : String := toString ((200 * n + 6) / 12)

/-- The learning-style breakdown paragraph (App.py lines 355-362). -/
def interpretationText (s : Scores) : String :=
  "<b>Learning Style Breakdown:</b><br/>• Visual Learning: " ++ pctStr s.visual
    ++ "% (" ++ toString s.visual ++ "/6 indicators)<br/>• Auditory Learning: "
    ++ pctStr s.auditory ++ "% (" ++ toString s.auditory
    ++ "/6 indicators)<br/>• Kinesthetic Learning: " ++ pctStr s.kinesthetic
    ++ "% (" ++ toString s.kinesthetic
    ++ "/6 indicators)<br/><br/>This distribution reveals your child\x27s preferred ways of receiving and processing information."

/-- Heading cleanup of the `##` branch (App.py line 382): drop the marker and
the decorative emojis, trimming whitespace as `str.strip` does. -/
def cleanHeading2 (s : String) : String :=
  ((((((((s.trim.replace "##" "").replace "🎯" "").replace "📚" "").replace "🧠" "").replace "💝" "").replace "✝️" "").replace "🚀" "").replace "🌟" "").trim

/-- Classification of one analysis section into a styled paragraph
(App.py lines 379-396). -/
def renderSection (sec : String) : Item :=
  if sec.trim.startsWith "##" then
    Item.paragraph "CustomHeading2" (cleanHeading2 sec)
  else if sec.trim.startsWith "#" then
    Item.paragraph "CustomHeading1" ((sec.trim.replace "#" "").trim)
  else if sec.trim.startsWith "**" || pyIn "**KEY INSIGHT:**" sec then
    Item.paragraph "Highlight" (sec.replace "**" "")
  else if sec.trim.startsWith "•" || sec.trim.startsWith "-" || sec.trim.startsWith "1." then
    Item.paragraph "CustomBody" sec
  else
    Item.paragraph "CustomBody" sec

/-- The analysis text reflowed into items: split on blank lines, skip empty
sections, and follow every rendered section with a small spacer
(App.py lines 373-398). -/
def analysisItems (analysis : String) : List Item :=
  (((analysis.splitOn "\n\n").filter (fun sec => !(sec.trim == ""))).map
    (fun sec => [renderSection sec, Item.spacer 10])).flatten

/-- Grouping of the 30 questions by dimension (App.py lines 408-414). -/
def dimensions : List (String × List String) :=
  [("Learning Style Preferences", ["q1", "q2", "q3", "q4", "q5", "q6"]),
   ("Developmental Orientation", ["q7", "q8", "q9", "q10", "q11", "q12"]),
   ("Cognitive Strengths", ["q13", "q14", "q15", "q16", "q17", "q18"]),
   ("Social-Emotional Profile", ["q19", "q20", "q21", "q22", "q23", "q24"]),
   ("Biblical Identity Markers", ["q25", "q26", "q27", "q28", "q29", "q30"])]

/-- The abbreviated question texts used in the response tables
(App.py lines 416-447). -/
def question_texts : List (String × String) :=
  [("q1", "My child tends to remember things best after..."),
   ("q2", "When assembling a new toy, they are most likely to..."),
   ("q3", "Express themselves and their ideas through..."),
   ("q4", "When spelling a new word, they often..."),
   ("q5", "Most distracted in classroom by..."),
   ("q6", "Enjoy books that have..."),
   ("q7", "Organizes the plan and makes sure everyone knows their role"),
   ("q8", "Comes up with imaginative and original ideas"),
   ("q9", "Focuses on making sure everyone feels included"),
   ("q10", "Is eager to start building or making physical parts"),
   ("q11", "Enjoys improving systems or processes"),
   ("q12", "Would rather invent a new game than play by rules"),
   ("q13", "Shows talent for solving logic puzzles or asking why questions"),
   ("q14", "Reading, writing stories, or large vocabulary"),
   ("q15", "Recognizing melodies, good sense of rhythm, or drawn to instruments"),
   ("q16", "Navigating new places, reading maps, or enjoys drawing/painting"),
   ("q17", "Understanding other people\x27s feelings and cooperating in groups"),
   ("q18", "Being in nature, caring for animals, or noticing natural details"),
   ("q19", "Able to calmly express their feelings, even when upset"),
   ("q20", "Prefers playing with one or two close friends rather than large group"),
   ("q21", "Easily picks up on the moods and emotions of people around them"),
   ("q22", "Can bounce back from disappointments or setbacks"),
   ("q23", "Comfortable starting conversations with new children"),
   ("q24", "Will stand up for others or try to mediate conflicts"),
   ("q25", "Praised for their unique ideas and creative spirit (Created)"),
   ("q26", "Given a special role or purpose that helps others (Called)"),
   ("q27", "Recognized for a specific skill or talent developed (Capable)"),
   ("q28", "Feeling like a valued member of family/team/church (Connected)"),
   ("q29", "Encouraged to use personal gifts to bless someone else"),
   ("q30", "Reminded that they are loved unconditionally")]

/-- The five per-dimension response tables with their headings and trailing
spacers (App.py lines 449-474).  Missing answers read as "Not answered", as
`answers.get(q_key, 'Not answered')` does. -/
def responseTables (answers : List (String × String)) : List Item :=
  (dimensions.map (fun d =>
    [Item.paragraph "CustomHeading2" ("<b>" ++ d.1 ++ "</b>"),
     Item.table [300, 250]
       (["Question", "Response"] ::
         d.2.map (fun q => [dictGet question_texts q q, dictGet answers q "Not answered"])),
     Item.spacer 20])).flatten

/-- Static action-plan text (App.py lines 483-507). -/
def nextStepsText : String :=
  "<b>Immediate Actions (This Week):</b><br/>☐ Share this report with your child\x27s teacher or educational team<br/>☐ Discuss one key strength with your child to affirm their identity<br/>☐ Implement one learning style recommendation in your home<br/>☐ Create a dedicated study space that matches their learning preferences<br/><br/><b>Short-term Goals (This Month):</b><br/>☐ Schedule a family meeting to discuss the Biblical identity insights<br/>☐ Adjust homework routines based on learning style recommendations<br/>☐ Explore enrichment activities that align with cognitive strengths<br/>☐ Connect with other parents of children with similar profiles<br/><br/><b>Long-term Development (This Year):</b><br/>☐ Track progress and note changes in learning preferences<br/>☐ Schedule follow-up assessment in 6-12 months<br/>☐ Build a portfolio of work that showcases their unique strengths<br/>☐ Develop a personalized education plan with measurable goals<br/><br/><b>Resources &amp; Support:</b><br/>• <b>Consultation:</b> Schedule a 1-on-1 consultation with our learning specialists<br/>• <b>Workshops:</b> Attend our monthly parent workshops on learning styles<br/>• <b>Community:</b> Join our online community of KidVentures families<br/>• <b>Materials:</b> Access our library of learning resources tailored to your child\x27s profile<br/>"

/-- Static closing contact box (App.py lines 516-523). -/
def contactBox : String :=
  "<b>Ready to Take the Next Step?</b><br/><br/>Contact KidVentures Learning today to discuss how we can support your child\x27s unique learning journey.<br/><br/>📧 Email: info@kidventureslearning.com<br/>📞 Phone: (404) 631-6320<br/>🌐 Website: www.kidventureslearning.com<br/><br/><i>Learning with Confidence. Leading with Purpose.</i>"

/-- Content assembly of `generate_pdf_report` (App.py lines 141-531): the
full list of content items of the document, in story order, as a function of
the analysis text, the Answer Set, the timestamp string and the model name. -/
def generate_pdf_report (analysis : String) (answers : List (String × String))
    (timestamp model : String) : List Item :=
  [Item.spacer 50,
   Item.paragraph "CustomTitle" "KidVentures Learning",
   Item.paragraph "Subtitle" "Comprehensive Learning Profile Assessment",
   Item.spacer 50,
   Item.hrule 2,
   Item.spacer 30,
   Item.table [200, 350]
     [["Report Generated:", timestamp],
      ["AI Model:", model],
      ["Analysis Type:", "Five-Dimension Comprehensive Profile"],
      ["Report Version:", "2.5"]],
   Item.spacer 50,
   Item.paragraph "CustomBody" missionText,
   Item.spacer 50,
   Item.paragraph "Contact" contactLine,
   Item.pageBreak,
   Item.paragraph "CustomHeading1" "Table of Contents",
   Item.spacer 20,
   Item.table [400, 150] toc_rows,
   Item.pageBreak,
   Item.paragraph "CustomHeading1" "Learning Style Distribution",
   Item.spacer 20,
   Item.pieChart (calculate_dimension_scores answers),
   Item.spacer 20]
  ++ (if 0 < sumScores (calculate_dimension_scores answers) then
        [Item.paragraph "CustomBody" (interpretationText (calculate_dimension_scores answers))]
      else [])
  ++ [Item.pageBreak,
      Item.paragraph "CustomHeading1" "Comprehensive AI Analysis",
      Item.spacer 20]
  ++ analysisItems analysis
  ++ [Item.pageBreak,
      Item.paragraph "CustomHeading1" "Complete Assessment Responses",
      Item.spacer 20]
  ++ responseTables answers
  ++ [Item.pageBreak,
      Item.paragraph "CustomHeading1" "Next Steps & Action Plan",
      Item.spacer 20,
      Item.paragraph "CustomBody" nextStepsText,
      Item.spacer 30,
      Item.hrule 1,
      Item.spacer 20,
      Item.paragraph "Recommendation" contactBox]

/-! ### The submission handler (App.py lines 696-797)

The `if submitted:` block is modelled as a pure function of the Answer Set,
the configured credential, the outcome of the external analysis call and the
session's timestamp and model choice.  Its effects — which message is shown,
whether the external call happens, whether a download artifact exists, and
the Answer Set afterwards — are returned as an explicit record. -/

/-- Error message of the incomplete-submission branch (App.py line 698). -/
def incompleteMsg : String :=
  "⚠️ Please answer all 30 questions before generating the report."

/-- Error message of the missing-credential branch (App.py line 700). -/
def noKeyMsg : String :=
  "⚠️ Please enter your OpenAI API key in the sidebar."

/-- Info message of the exception handler (App.py line 797). -/
def retryMsg : String := "Please check your API key and try again."

/-- Python `all(answers.values())`: every answer value is truthy, i.e. a
non-empty string. -/
def allAnswered (answers : List (String × String)) : Bool :=
  answers.all (fun p => p.2 != "")

/-- Observable outcome of one submission. -/
structure SubmissionResult where
  errorMsg : Option String
  infoMsg : Option String
  apiCalled : Bool
  pdf : Option (List Item)
  answersAfter : List (String × String)

/-- The submission handler (App.py lines 696-797).  `apiResult` is the
behavior of the opaque external provider for this request: `Except.ok` a
block of analysis text, or `Except.error` the text of the raised exception.
The handler never writes to `answers`, which the record's `answersAfter`
field makes explicit. -/
def process_submission (answers : List (String × String)) (apiKey : String)
    (apiResult : Except String String) (timestamp model : String) : SubmissionResult :=
  if !(allAnswered answers) then
    { errorMsg := some incompleteMsg, infoMsg := none, apiCalled := false,
      pdf := none, answersAfter := answers }
  else if apiKey == "" then
    { errorMsg := some noKeyMsg, infoMsg := none, apiCalled := false,
      pdf := none, answersAfter := answers }
  else
    match apiResult with
    | Except.error e =>
        { errorMsg := some ("❌ Error: " ++ e), infoMsg := some retryMsg,
          apiCalled := true, pdf := none, answersAfter := answers }
    | Except.ok analysis =>
        { errorMsg := none, infoMsg := none, apiCalled := true,
          pdf := some (generate_pdf_report analysis answers timestamp model),
          answersAfter := answers }

/-- A fully answered Answer Set: the first listed option of every one of the
30 questions (the defaults the form renders with). -/
def answers30 : List (String × String) :=
  visualAnswers ++
  [("q7", "Very often"), ("q8", "Very often"), ("q9", "Very often"),
   ("q10", "Very often"), ("q11", "Very often"), ("q12", "Very often"),
   ("q13", "Describes my child well"), ("q14", "Describes my child well"),
   ("q15", "Describes my child well"), ("q16", "Describes my child well"),
   ("q17", "Describes my child well"), ("q18", "Describes my child well"),
   ("q19", "Usually"), ("q20", "Usually"), ("q21", "Usually"),
   ("q22", "Usually"), ("q23", "Usually"), ("q24", "Usually"),
   ("q25", "Strongly agree"), ("q26", "Strongly agree"), ("q27", "Strongly agree"),
   ("q28", "Strongly agree"), ("q29", "Strongly agree"), ("q30", "Strongly agree")]

/-- The same Answer Set with q30 left unanswered. -/
def incompleteAnswers : List (String × String) :=
  answers30.map (fun p => if p.1 == "q30" then (p.1, "") else p)

/-- Two Answer Sets agreeing on q1..q6 and differing on q7. -/
def answersAgreeA : List (String × String) :=
  visualAnswers ++ [("q7", "Very often")]

/-- Second of the two Answer Sets agreeing on q1..q6 and differing on q7. -/
def answersAgreeB : List (String × String) :=
  visualAnswers ++ [("q7", "Rarely")]

/-! ### Helper lemmas about the scorer -/

theorem scoreQuestion_cases (kw : List String) (a : String) (s : Scores) :
    scoreQuestion kw a s = s ∨
    scoreQuestion kw a s = { s with visual := s.visual + 1 } ∨
    scoreQuestion kw a s = { s with auditory := s.auditory + 1 } ∨
    scoreQuestion kw a s = { s with kinesthetic := s.kinesthetic + 1 } := by
  simp only [scoreQuestion]
  split_ifs <;> simp

theorem scoreQuestion_visual_le (kw : List String) (a : String) (s : Scores) :
    (scoreQuestion kw a s).visual ≤ s.visual + 1 := by
  rcases scoreQuestion_cases kw a s with h | h | h | h <;> rw [h] <;> first | omega | (dsimp; omega)

theorem scoreQuestion_auditory_le (kw : List String) (a : String) (s : Scores) :
    (scoreQuestion kw a s).auditory ≤ s.auditory + 1 := by
  rcases scoreQuestion_cases kw a s with h | h | h | h <;> rw [h] <;> first | omega | (dsimp; omega)

theorem scoreQuestion_kinesthetic_le (kw : List String) (a : String) (s : Scores) :
    (scoreQuestion kw a s).kinesthetic ≤ s.kinesthetic + 1 := by
  rcases scoreQuestion_cases kw a s with h | h | h | h <;> rw [h] <;> first | omega | (dsimp; omega)

theorem sumScores_scoreQuestion_le (kw : List String) (a : String) (s : Scores) :
    sumScores (scoreQuestion kw a s) ≤ sumScores s + 1 := by
  rcases scoreQuestion_cases kw a s with h | h | h | h <;> rw [h] <;> dsimp [sumScores] <;> omega

theorem sumScores_scoreQuestion_of_match {kw : List String} {a : String} {s : Scores}
    (h : anyMatch kw a = true) :
    sumScores (scoreQuestion kw a s) = sumScores s + 1 := by
  simp only [anyMatch, Bool.or_eq_true] at h
  simp only [scoreQuestion]
  split_ifs with h1 h2 h3
  · dsimp [sumScores]; omega
  · dsimp [sumScores]; omega
  · dsimp [sumScores]; omega
  · tauto

theorem scoreQuestion_of_no_match {kw : List String} {a : String} (s : Scores)
    (h : anyMatch kw a = false) : scoreQuestion kw a s = s := by
  simp only [anyMatch, Bool.or_eq_false_iff] at h
  obtain ⟨⟨h1, h2⟩, h3⟩ := h
  simp [scoreQuestion, h1, h2, h3]

theorem calculate_dimension_scores_eq_scoreFold (answers : List (String × String)) :
    calculate_dimension_scores answers = scoreFold answers learning_map ⟨0, 0, 0⟩ := rfl

theorem scoreFold_nil (answers : List (String × String)) (s : Scores) :
    scoreFold answers [] s = s := rfl

theorem scoreFold_cons (answers : List (String × String)) (p : String × List String)
    (l : List (String × List String)) (s : Scores) :
    scoreFold answers (p :: l) s =
      scoreFold answers l (scoreQuestion p.2 (dictGet answers p.1 "") s) := rfl

theorem scoreFold_visual_le (answers : List (String × String)) :
    ∀ (l : List (String × List String)) (s : Scores),
      (scoreFold answers l s).visual ≤ s.visual + l.length := by
  intro l
  induction l with
  | nil => intro s; simp [scoreFold_nil]
  | cons p l ih =>
      intro s
      have h1 := scoreQuestion_visual_le p.2 (dictGet answers p.1 "") s
      have h2 := ih (scoreQuestion p.2 (dictGet answers p.1 "") s)
      rw [scoreFold_cons, List.length_cons]
      omega

theorem scoreFold_auditory_le (answers : List (String × String)) :
    ∀ (l : List (String × List String)) (s : Scores),
      (scoreFold answers l s).auditory ≤ s.auditory + l.length := by
  intro l
  induction l with
  | nil => intro s; simp [scoreFold_nil]
  | cons p l ih =>
      intro s
      have h1 := scoreQuestion_auditory_le p.2 (dictGet answers p.1 "") s
      have h2 := ih (scoreQuestion p.2 (dictGet answers p.1 "") s)
      rw [scoreFold_cons, List.length_cons]
      omega

theorem scoreFold_kinesthetic_le (answers : List (String × String)) :
    ∀ (l : List (String × List String)) (s : Scores),
      (scoreFold answers l s).kinesthetic ≤ s.kinesthetic + l.length := by
  intro l
  induction l with
  | nil => intro s; simp [scoreFold_nil]
  | cons p l ih =>
      intro s
      have h1 := scoreQuestion_kinesthetic_le p.2 (dictGet answers p.1 "") s
      have h2 := ih (scoreQuestion p.2 (dictGet answers p.1 "") s)
      rw [scoreFold_cons, List.length_cons]
      omega

theorem sumScores_scoreFold_le (answers : List (String × String)) :
    ∀ (l : List (String × List String)) (s : Scores),
      sumScores (scoreFold answers l s) ≤ sumScores s + l.length := by
  intro l
  induction l with
  | nil => intro s; simp [scoreFold_nil]
  | cons p l ih =>
      intro s
      have h1 := sumScores_scoreQuestion_le p.2 (dictGet answers p.1 "") s
      have h2 := ih (scoreQuestion p.2 (dictGet answers p.1 "") s)
      rw [scoreFold_cons, List.length_cons]
      omega

/-! ### Claims C1, C3 and C10 -/

/-- Claim C1: for every Answer Set, each component of the Dimension Score
returned by `calculate_dimension_scores` (visual, auditory, kinesthetic) is
a natural number at most 6, and the three components sum to at most 18. -/
theorem dimension_score_components_bounded (answers : List (String × String)) :
    (calculate_dimension_scores answers).visual ≤ 6 ∧
    (calculate_dimension_scores answers).auditory ≤ 6 ∧
    (calculate_dimension_scores answers).kinesthetic ≤ 6 ∧
    (calculate_dimension_scores answers).visual
      + (calculate_dimension_scores answers).auditory
      + (calculate_dimension_scores answers).kinesthetic ≤ 18 := by
  rw [calculate_dimension_scores_eq_scoreFold answers]
  have h1 := scoreFold_visual_le answers learning_map ⟨0, 0, 0⟩
  have h2 := scoreFold_auditory_le answers learning_map ⟨0, 0, 0⟩
  have h3 := scoreFold_kinesthetic_le answers learning_map ⟨0, 0, 0⟩
  have hl : learning_map.length = 6 := rfl
  rw [hl] at h1 h2 h3
  dsimp at h1 h2 h3
  exact ⟨h1, h2, h3, by omega⟩

/-- Claim C3: on the Answer Set whose six learning-style answers are the
declared visual (first listed) option strings, `calculate_dimension_scores`
returns visual 6, auditory 0, kinesthetic 0. -/
theorem visual_options_score_six_zero_zero :
    calculate_dimension_scores visualAnswers =
      { visual := 6, auditory := 0, kinesthetic := 0 } := by decide

/-- Claim C10: each learning-style question increments at most one component
(the if/elif chain makes the category tests mutually exclusive), so the three
components sum to at most 6 for every Answer Set; an answer matching cues of
several categories counts only for the highest-priority one — visual before
auditory before kinesthetic — as the two concrete multi-match evaluations
show. -/
theorem per_question_exclusive_sum_le_six (answers : List (String × String)) :
    sumScores (calculate_dimension_scores answers) ≤ 6 ∧
    (∀ (kw : List String) (a : String) (s : Scores),
      scoreQuestion kw a s = s ∨
      scoreQuestion kw a s = { s with visual := s.visual + 1 } ∨
      scoreQuestion kw a s = { s with auditory := s.auditory + 1 } ∨
      scoreQuestion kw a s = { s with kinesthetic := s.kinesthetic + 1 }) ∧
    scoreQuestion ["written", "spoken", "physical"] "visual audi kines doing" ⟨0, 0, 0⟩
      = ⟨1, 0, 0⟩ ∧
    scoreQuestion ["written", "spoken", "physical"] "audi kines doing" ⟨0, 0, 0⟩
      = ⟨0, 1, 0⟩ := by
  refine ⟨?_, scoreQuestion_cases, by decide, by decide⟩
  rw [calculate_dimension_scores_eq_scoreFold answers]
  have h := sumScores_scoreFold_le answers learning_map ⟨0, 0, 0⟩
  have hl : learning_map.length = 6 := rfl
  rw [hl] at h
  dsimp [sumScores] at h ⊢
  omega

/-! ### Claims C2 and C4

Every one of the 18 declared learning-style options turns out to contain a
cue the scorer tests for (for instance "written" is a substring of the
lower-cased "Seeing them written down or in a picture"), so contrary to the
spec's worry no legitimate answer falls through the keyword lists. -/

theorem anyMatch_q1_options :
    ∀ a ∈ ["Seeing them written down or in a picture", "Hearing them spoken aloud",
           "Doing a physical activity associated with them"],
      anyMatch ["written", "spoken", "physical"] a = true := by decide

theorem anyMatch_q2_options :
    ∀ a ∈ ["Look carefully at the diagrams in the manual",
           "Ask someone to read the instructions to them",
           "Ignore the instructions and figure it out by handling the pieces"],
      anyMatch ["diagram", "read", "handling"] a = true := by decide

theorem anyMatch_q3_options :
    ∀ a ∈ ["Drawing, doodling, or making visual aids",
           "Talking, telling stories, or singing songs",
           "Gesturing, acting things out, or building models"],
      anyMatch ["drawing", "talking", "gesturing"] a = true := by decide

theorem anyMatch_q4_options :
    ∀ a ∈ ["Try to visualize what the word looks like",
           "Sound out the letters phonetically",
           "Write it down or trace the letters with their finger"],
      anyMatch ["visualize", "sound", "write"] a = true := by decide

theorem anyMatch_q5_options :
    ∀ a ∈ ["Messy or cluttered visual surroundings",
           "Noises and other people talking",
           "Having to sit still for long periods"],
      anyMatch ["messy", "noise", "sit still"] a = true := by decide

theorem anyMatch_q6_options :
    ∀ a ∈ ["Lots of detailed illustrations or photographs",
           "A captivating narrator or read aloud with expression",
           "Interactive elements like flaps or textures to feel"],
      anyMatch ["illustr", "captivat", "interact"] a = true := by decide

theorem anyMatch_of_valid (answers : List (String × String)) (h : validLearning answers) :
    ∀ p ∈ learning_map, anyMatch p.2 (dictGet answers p.1 "") = true := by
  intro p hp
  simp only [learning_map, List.mem_cons, List.not_mem_nil, or_false] at hp
  rcases hp with rfl | rfl | rfl | rfl | rfl | rfl
  · exact anyMatch_q1_options _
      (h ("q1", ["Seeing them written down or in a picture", "Hearing them spoken aloud",
        "Doing a physical activity associated with them"]) (by decide))
  · exact anyMatch_q2_options _
      (h ("q2", ["Look carefully at the diagrams in the manual",
        "Ask someone to read the instructions to them",
        "Ignore the instructions and figure it out by handling the pieces"]) (by decide))
  · exact anyMatch_q3_options _
      (h ("q3", ["Drawing, doodling, or making visual aids",
        "Talking, telling stories, or singing songs",
        "Gesturing, acting things out, or building models"]) (by decide))
  · exact anyMatch_q4_options _
      (h ("q4", ["Try to visualize what the word looks like",
        "Sound out the letters phonetically",
        "Write it down or trace the letters with their finger"]) (by decide))
  · exact anyMatch_q5_options _
      (h ("q5", ["Messy or cluttered visual surroundings",
        "Noises and other people talking",
        "Having to sit still for long periods"]) (by decide))
  · exact anyMatch_q6_options _
      (h ("q6", ["Lots of detailed illustrations or photographs",
        "A captivating narrator or read aloud with expression",
        "Interactive elements like flaps or textures to feel"]) (by decide))

theorem sumScores_scoreFold_of_match (answers : List (String × String)) :
    ∀ (l : List (String × List String)),
      (∀ p ∈ l, anyMatch p.2 (dictGet answers p.1 "") = true) →
      ∀ s, sumScores (scoreFold answers l s) = sumScores s + l.length := by
  intro l
  induction l with
  | nil => intro _ s; simp [scoreFold_nil]
  | cons p l ih =>
      intro h s
      rw [scoreFold_cons,
        ih (fun q hq => h q (List.mem_cons_of_mem p hq)) _,
        sumScores_scoreQuestion_of_match (h p (List.mem_cons_self p l)),
        List.length_cons]
      omega

theorem sum_eq_six_of_valid (answers : List (String × String)) (h : validLearning answers) :
    sumScores (calculate_dimension_scores answers) = 6 := by
  rw [calculate_dimension_scores_eq_scoreFold,
    sumScores_scoreFold_of_match answers learning_map (anyMatch_of_valid answers h) _]
  rfl

/-- Claim C2 — counterexample: the claimed valid Answer Set with a
non-scoring answer does not exist.  Every declared option of q1..q6 contains
a cue of its category, so on every valid Answer Set the three components of
`calculate_dimension_scores` sum to exactly 6, never strictly less. -/
theorem no_valid_answer_set_scores_below_six :
    ¬ ∃ answers : List (String × String),
        validLearning answers ∧
        sumScores (calculate_dimension_scores answers) < 6 := by
  rintro ⟨answers, hv, hlt⟩
  rw [sum_eq_six_of_valid answers hv] at hlt
  exact lt_irrefl 6 hlt

/-- Claim C2 — amended: for every valid Answer Set (each of the first six
answers one of that question's declared literal option strings), every one
of the six answers matches a cue of the scorer, and the three Dimension
Score components of `calculate_dimension_scores` sum to exactly 6. -/
theorem valid_answer_sets_sum_exactly_six (answers : List (String × String))
    (h : validLearning answers) :
    sumScores (calculate_dimension_scores answers) = 6 :=
  sum_eq_six_of_valid answers h

/-- Witness for the amended claim C2 at the concrete valid Answer Set
`visualAnswers`. -/
theorem valid_answer_sets_sum_exactly_six_witness :
    validLearning visualAnswers ∧
    sumScores (calculate_dimension_scores visualAnswers) = 6 :=
  ⟨by decide, valid_answer_sets_sum_exactly_six visualAnswers (by decide)⟩

/-- Claim C4: the Dimension Score depends only on the answers to q1..q6 —
two Answer Sets agreeing on those six keys (and arbitrary elsewhere) get
equal results from `calculate_dimension_scores`. -/
theorem dimension_scores_depend_only_on_q1_to_q6
    (a b : List (String × String))
    (h : ∀ k ∈ learningKeys, dictGet a k "" = dictGet b k "") :
    calculate_dimension_scores a = calculate_dimension_scores b := by
  have h1 := h "q1" (by decide)
  have h2 := h "q2" (by decide)
  have h3 := h "q3" (by decide)
  have h4 := h "q4" (by decide)
  have h5 := h "q5" (by decide)
  have h6 := h "q6" (by decide)
  simp only [calculate_dimension_scores, learning_map, List.foldl_cons, List.foldl_nil]
  rw [h1, h2, h3, h4, h5, h6]

/-- Witness for claim C4 at two concrete Answer Sets agreeing on q1..q6 and
differing on q7. -/
theorem dimension_scores_depend_only_on_q1_to_q6_witness :
    (∀ k ∈ learningKeys, dictGet answersAgreeA k "" = dictGet answersAgreeB k "") ∧
    calculate_dimension_scores answersAgreeA = calculate_dimension_scores answersAgreeB :=
  ⟨by decide, dimension_scores_depend_only_on_q1_to_q6 answersAgreeA answersAgreeB (by decide)⟩

/-! ### Claim C5 -/

theorem filterOut_cons (p : String × String) (d : List (String × String)) (k : String) :
    filterOut (p :: d) k = if p.1 == k then filterOut d k else p :: filterOut d k := by
  by_cases h : p.1 = k <;> simp [filterOut, List.filter_cons, h]

theorem dictGet_filterOut_self (d : List (String × String)) (k dflt : String) :
    dictGet (filterOut d k) k dflt = dflt := by
  induction d with
  | nil => rfl
  | cons p d ih =>
      rw [filterOut_cons]
      by_cases h : p.1 == k
      · simp [h, ih]
      · simp [dictGet, h, ih]

theorem dictGet_filterOut_ne (d : List (String × String)) (j k dflt : String)
    (h : (j == k) = false) :
    dictGet (filterOut d k) j dflt = dictGet d j dflt := by
  induction d with
  | nil => rfl
  | cons p d ih =>
      rw [filterOut_cons]
      by_cases hp : p.1 == k
      · have hk : p.1 = k := by simpa using hp
        have hj : j ≠ k := by simpa using h
        have hpj : (p.1 == j) = false := by
          rw [hk]
          exact beq_eq_false_iff_ne.mpr (Ne.symm hj)
        simp [hp, dictGet, hpj, ih]
      · simp only [hp, if_false]
        by_cases hq : p.1 == j <;> simp [dictGet, hq, ih]

theorem calc_filterOut_eq (answers : List (String × String)) (k : String)
    (hk : k ∈ learningKeys)
    (hnm : anyMatch (learningKeywords k) (dictGet answers k "") = false) :
    calculate_dimension_scores answers = calculate_dimension_scores (filterOut answers k) := by
  have e1 : anyMatch ["written", "spoken", "physical"] "" = false := by decide
  have e2 : anyMatch ["diagram", "read", "handling"] "" = false := by decide
  have e3 : anyMatch ["drawing", "talking", "gesturing"] "" = false := by decide
  have e4 : anyMatch ["visualize", "sound", "write"] "" = false := by decide
  have e5 : anyMatch ["messy", "noise", "sit still"] "" = false := by decide
  have e6 : anyMatch ["illustr", "captivat", "interact"] "" = false := by decide
  simp only [learningKeys, List.mem_cons, List.not_mem_nil, or_false] at hk
  rcases hk with rfl | rfl | rfl | rfl | rfl | rfl
  · replace hnm : anyMatch ["written", "spoken", "physical"] (dictGet answers "q1" "") = false := hnm
    simp only [calculate_dimension_scores, learning_map, List.foldl_cons, List.foldl_nil]
    rw [dictGet_filterOut_ne answers "q2" "q1" "" (by decide),
      dictGet_filterOut_ne answers "q3" "q1" "" (by decide),
      dictGet_filterOut_ne answers "q4" "q1" "" (by decide),
      dictGet_filterOut_ne answers "q5" "q1" "" (by decide),
      dictGet_filterOut_ne answers "q6" "q1" "" (by decide),
      dictGet_filterOut_self answers "q1" "",
      scoreQuestion_of_no_match _ hnm, scoreQuestion_of_no_match _ e1]
  · replace hnm : anyMatch ["diagram", "read", "handling"] (dictGet answers "q2" "") = false := hnm
    simp only [calculate_dimension_scores, learning_map, List.foldl_cons, List.foldl_nil]
    rw [dictGet_filterOut_ne answers "q1" "q2" "" (by decide),
      dictGet_filterOut_ne answers "q3" "q2" "" (by decide),
      dictGet_filterOut_ne answers "q4" "q2" "" (by decide),
      dictGet_filterOut_ne answers "q5" "q2" "" (by decide),
      dictGet_filterOut_ne answers "q6" "q2" "" (by decide),
      dictGet_filterOut_self answers "q2" "",
      scoreQuestion_of_no_match _ hnm, scoreQuestion_of_no_match _ e2]
  · replace hnm : anyMatch ["drawing", "talking", "gesturing"] (dictGet answers "q3" "") = false := hnm
    simp only [calculate_dimension_scores, learning_map, List.foldl_cons, List.foldl_nil]
    rw [dictGet_filterOut_ne answers "q1" "q3" "" (by decide),
      dictGet_filterOut_ne answers "q2" "q3" "" (by decide),
      dictGet_filterOut_ne answers "q4" "q3" "" (by decide),
      dictGet_filterOut_ne answers "q5" "q3" "" (by decide),
      dictGet_filterOut_ne answers "q6" "q3" "" (by decide),
      dictGet_filterOut_self answers "q3" "",
      scoreQuestion_of_no_match _ hnm, scoreQuestion_of_no_match _ e3]
  · replace hnm : anyMatch ["visualize", "sound", "write"] (dictGet answers "q4" "") = false := hnm
    simp only [calculate_dimension_scores, learning_map, List.foldl_cons, List.foldl_nil]
    rw [dictGet_filterOut_ne answers "q1" "q4" "" (by decide),
      dictGet_filterOut_ne answers "q2" "q4" "" (by decide),
      dictGet_filterOut_ne answers "q3" "q4" "" (by decide),
      dictGet_filterOut_ne answers "q5" "q4" "" (by decide),
      dictGet_filterOut_ne answers "q6" "q4" "" (by decide),
      dictGet_filterOut_self answers "q4" "",
      scoreQuestion_of_no_match _ hnm, scoreQuestion_of_no_match _ e4]
  · replace hnm : anyMatch ["messy", "noise", "sit still"] (dictGet answers "q5" "") = false := hnm
    simp only [calculate_dimension_scores, learning_map, List.foldl_cons, List.foldl_nil]
    rw [dictGet_filterOut_ne answers "q1" "q5" "" (by decide),
      dictGet_filterOut_ne answers "q2" "q5" "" (by decide),
      dictGet_filterOut_ne answers "q3" "q5" "" (by decide),
      dictGet_filterOut_ne answers "q4" "q5" "" (by decide),
      dictGet_filterOut_ne answers "q6" "q5" "" (by decide),
      dictGet_filterOut_self answers "q5" "",
      scoreQuestion_of_no_match _ hnm, scoreQuestion_of_no_match _ e5]
  · replace hnm : anyMatch ["illustr", "captivat", "interact"] (dictGet answers "q6" "") = false := hnm
    simp only [calculate_dimension_scores, learning_map, List.foldl_cons, List.foldl_nil]
    rw [dictGet_filterOut_ne answers "q1" "q6" "" (by decide),
      dictGet_filterOut_ne answers "q2" "q6" "" (by decide),
      dictGet_filterOut_ne answers "q3" "q6" "" (by decide),
      dictGet_filterOut_ne answers "q4" "q6" "" (by decide),
      dictGet_filterOut_ne answers "q5" "q6" "" (by decide),
      dictGet_filterOut_self answers "q6" "",
      scoreQuestion_of_no_match _ hnm, scoreQuestion_of_no_match _ e6]

/-- Claim C5: if the answer of a learning-style question matches none of
that question's three keywords and none of the shared category cues, the
scorer increments no component for that question, and the Dimension Score
equals the one computed with that answer absent from the Answer Set. -/
theorem no_match_answer_contributes_nothing (answers : List (String × String)) (k : String)
    (hk : k ∈ learningKeys)
    (hnm : anyMatch (learningKeywords k) (dictGet answers k "") = false) :
    (∀ s : Scores, scoreQuestion (learningKeywords k) (dictGet answers k "") s = s) ∧
    calculate_dimension_scores answers = calculate_dimension_scores (filterOut answers k) :=
  ⟨fun s => scoreQuestion_of_no_match s hnm, calc_filterOut_eq answers k hk hnm⟩

/-- Witness for claim C5 at the concrete Answer Set whose q1 answer is
"banana", matching no cue. -/
theorem no_match_answer_contributes_nothing_witness :
    ("q1" ∈ learningKeys) ∧
    (anyMatch (learningKeywords "q1") (dictGet noMatchAnswers "q1" "") = false) ∧
    ((∀ s : Scores, scoreQuestion (learningKeywords "q1") (dictGet noMatchAnswers "q1" "") s = s) ∧
      calculate_dimension_scores noMatchAnswers =
        calculate_dimension_scores (filterOut noMatchAnswers "q1")) :=
  ⟨by decide, by decide,
    no_match_answer_contributes_nothing noMatchAnswers "q1" (by decide) (by decide)⟩

/-! ### Claims C6, C7, C8 -/

theorem allAnswered_eq_false_of_unanswered (answers : List (String × String))
    (h : ∃ p ∈ answers, p.2 = "") : allAnswered answers = false := by
  obtain ⟨p, hp, hv⟩ := h
  rw [allAnswered, Bool.eq_false_iff]
  intro hcontra
  rw [List.all_eq_true] at hcontra
  have hx := hcontra p hp
  rw [hv] at hx
  simp at hx

/-- Claim C6: an Answer Set with an unanswered question blocks report
generation — the incomplete-submission error is shown, the external call is
never made, no PDF artifact is produced, and the answers are unchanged. -/
theorem unanswered_blocks_submission (answers : List (String × String))
    (apiKey timestamp model : String) (apiResult : Except String String)
    (h : ∃ p ∈ answers, p.2 = "") :
    (process_submission answers apiKey apiResult timestamp model).errorMsg
        = some incompleteMsg ∧
    (process_submission answers apiKey apiResult timestamp model).apiCalled = false ∧
    (process_submission answers apiKey apiResult timestamp model).pdf = none ∧
    (process_submission answers apiKey apiResult timestamp model).answersAfter = answers := by
  have hall := allAnswered_eq_false_of_unanswered answers h
  simp [process_submission, hall]

/-- Witness for claim C6 at the 30-question Answer Set with q30 empty. -/
theorem unanswered_blocks_submission_witness :
    (∃ p ∈ incompleteAnswers, p.2 = "") ∧
    ((process_submission incompleteAnswers "sk-key" (Except.ok "analysis text") "ts" "gpt-4o").errorMsg
        = some incompleteMsg ∧
     (process_submission incompleteAnswers "sk-key" (Except.ok "analysis text") "ts" "gpt-4o").apiCalled = false ∧
     (process_submission incompleteAnswers "sk-key" (Except.ok "analysis text") "ts" "gpt-4o").pdf = none ∧
     (process_submission incompleteAnswers "sk-key" (Except.ok "analysis text") "ts" "gpt-4o").answersAfter = incompleteAnswers) :=
  ⟨by decide,
    unanswered_blocks_submission incompleteAnswers "sk-key" "ts" "gpt-4o"
      (Except.ok "analysis text") (by decide)⟩

/-- Claim C7: when the external analysis call raises, the user sees the
generic error built from the exception text alone (so no partial or garbled
analysis text can appear in it), the retry invitation is shown, and no PDF
artifact exists for the submission. -/
theorem api_failure_generic_error (answers : List (String × String))
    (apiKey timestamp model e : String)
    (hall : allAnswered answers = true) (hkey : apiKey ≠ "") :
    (process_submission answers apiKey (Except.error e) timestamp model).errorMsg
        = some ("❌ Error: " ++ e) ∧
    (process_submission answers apiKey (Except.error e) timestamp model).infoMsg
        = some retryMsg ∧
    (process_submission answers apiKey (Except.error e) timestamp model).pdf = none := by
  simp [process_submission, hall, hkey]

/-- Witness for claim C7 at a complete Answer Set and a failing call. -/
theorem api_failure_generic_error_witness :
    allAnswered answers30 = true ∧ ("sk-key" : String) ≠ "" ∧
    ((process_submission answers30 "sk-key" (Except.error "boom") "ts" "gpt-4o").errorMsg
        = some ("❌ Error: " ++ "boom") ∧
     (process_submission answers30 "sk-key" (Except.error "boom") "ts" "gpt-4o").infoMsg
        = some retryMsg ∧
     (process_submission answers30 "sk-key" (Except.error "boom") "ts" "gpt-4o").pdf = none) :=
  ⟨by decide, by decide,
    api_failure_generic_error answers30 "sk-key" "ts" "gpt-4o" "boom" (by decide) (by decide)⟩

/-- Claim C8: a failing external analysis call leaves the Answer Set
unchanged — the answers mapping after the caught exception is exactly the
mapping before the call. -/
theorem api_failure_preserves_answers (answers : List (String × String))
    (apiKey timestamp model e : String)
    (hall : allAnswered answers = true) (hkey : apiKey ≠ "") :
    (process_submission answers apiKey (Except.error e) timestamp model).answersAfter
      = answers := by
  simp [process_submission, hall, hkey]

/-- Witness for claim C8 at a complete Answer Set and a failing call. -/
theorem api_failure_preserves_answers_witness :
    allAnswered answers30 = true ∧ ("sk-key" : String) ≠ "" ∧
    (process_submission answers30 "sk-key" (Except.error "network down") "ts" "gpt-4o").answersAfter
      = answers30 :=
  ⟨by decide, by decide,
    api_failure_preserves_answers answers30 "sk-key" "ts" "gpt-4o" "network down"
      (by decide) (by decide)⟩

/-! ### Claim C9 -/

/-- Claim C9: report composition is deterministic and idempotent — for a
fixed tuple of analysis text, Answer Set, timestamp string and model name,
two invocations of `generate_pdf_report` produce identical content
(cover information, score chart data, analysis paragraphs, response tables,
action-plan and contact sections alike). -/
theorem report_composition_deterministic (analysis : String)
    (answers : List (String × String)) (timestamp model : String) :
    generate_pdf_report analysis answers timestamp model
      = generate_pdf_report analysis answers timestamp model := rfl

end Kidsven
